import Mathlib

/-!
Verification development for the networking core of buildengine5
(`src/net/mod.rs` and its callers).  The wire codec, the handshake packet
handler, the reactor's readable/writable paths, the connection table and the
listener tick are embedded shallowly below; machine integers are `Nat` with
explicit `% 2 ^ w` at the points where the Rust code truncates, byte buffers
are `List Nat`, Rust strings are carried as their byte lists, and every
`expect`/`unwrap`/`unimplemented` site is an explicit `panicked`-style outcome.
The process-wide `VERSION` string and the `SHOULD_CRASH` flag (read through
`check_should_crash()`) are threaded through as parameters `localVersion` and
`localShouldCrash`.
-/

namespace BuildEngine

/-- Little-endian write of a 16-bit value (byteorder `write_u16::<LittleEndian>`
after Rust's truncating `as u16` cast: the value is taken `% 2 ^ 16`). -/
def u16le (n : Nat) : List Nat :=
  [n % 256, n / 256 % 256]

/-- Little-endian write of a 32-bit value (byteorder `write_u32::<LittleEndian>`). -/
def u32le (n : Nat) : List Nat :=
  [n % 256, n / 2 ^ 8 % 256, n / 2 ^ 16 % 256, n / 2 ^ 24 % 256]

/-- Little-endian write of a 64-bit value (the length prefix the payload encoder
writes for a string; a Rust `usize` serialized as `u64`). -/
def u64le (n : Nat) : List Nat :=
  [n % 256, n / 2 ^ 8 % 256, n / 2 ^ 16 % 256, n / 2 ^ 24 % 256,
   n / 2 ^ 32 % 256, n / 2 ^ 40 % 256, n / 2 ^ 48 % 256, n / 2 ^ 56 % 256]

/-- Little-endian read of a byte list (byteorder `LittleEndian::read_uNN` over
the first bytes of a slice; each byte is reduced `% 256` as `u8` values are). -/
def leRead (bytes : List Nat) : Nat :=
  bytes.foldr (fun b acc => b % 256 + 256 * acc) 0

/-- `NET_MAGIC_NUMBER` from `src/net/mod.rs`: `0xCB011043`. -/
def NET_MAGIC_NUMBER : Nat := 0xCB011043

/-- `NetworkError` from `src/net/mod.rs`.  The two version strings are carried
as their byte lists. -/
inductive NetworkError where
  | VersionMismatch (ver1 ver2 : List Nat)
  | ShouldCrashBothTrue
deriving DecidableEq, Repr

/-- `NetworkPacket` from `src/net/mod.rs` (the `cfg(test)`-only `Test` variant
is compiled out in normal builds and omitted). -/
inductive NetworkPacket where
  | Init (version : List Nat) (should_crash : Bool)
  | Error (err : NetworkError)
deriving DecidableEq, Repr

/-- Payload encoding of a string by the external `bincode` serde encoder the
crate calls: a `u64` byte length followed by the bytes.  (`bincode` is a
dependency, not part of this repository; its documented format is a
deterministic size-prefixed binary encoding.  The properties proved below do
not depend on the byte order chosen for the multi-byte payload fields.) -/
def serString (s : List Nat) : List Nat :=
  u64le s.length ++ s

/-- Payload encoding of a `bool` by the `bincode` encoder: one byte, `1` for
`true` and `0` for `false`. -/
def serBool (b : Bool) : List Nat :=
  [if b then 1 else 0]

/-- Payload encoding of a `NetworkError` value: a `u32` variant tag followed by
the fields in order. -/
def serNetworkError : NetworkError → List Nat
  | .VersionMismatch ver1 ver2 => u32le 0 ++ serString ver1 ++ serString ver2
  | .ShouldCrashBothTrue => u32le 1

/-- Payload encoding of a `NetworkPacket` (the `serialize(to_ser,
SizeLimit::Infinite)` call inside `seralize_packet`): a `u32` variant tag
followed by the fields in order. -/
def serialize : NetworkPacket → List Nat
  | .Init version should_crash => u32le 0 ++ serString version ++ serBool should_crash
  | .Error err => u32le 1 ++ serNetworkError err

/-- `DeserializeError` (the error type `bincode::serde::deserialize` returns):
the decoder fails on truncated input, an out-of-range `bool` byte, or an
out-of-range enum variant tag. -/
inductive DeserializeError where
  | endOfStream
  | invalidBool (b : Nat)
  | invalidTag (t : Nat)
deriving DecidableEq, Repr

/-- Read exactly `n` bytes from the front of the input, returning them and the
remainder; fails with `endOfStream` when fewer are available. -/
def readBytes (n : Nat) (l : List Nat) : Except DeserializeError (List Nat × List Nat) :=
  if n ≤ l.length then .ok (l.take n, l.drop n) else .error .endOfStream

/-- Read a little-endian `u32` from the front of the input. -/
def readU32 (l : List Nat) : Except DeserializeError (Nat × List Nat) :=
  match readBytes 4 l with
  | .ok (bs, rest) => .ok (leRead bs, rest)
  | .error e => .error e

/-- Read a little-endian `u64` from the front of the input. -/
def readU64 (l : List Nat) : Except DeserializeError (Nat × List Nat) :=
  match readBytes 8 l with
  | .ok (bs, rest) => .ok (leRead bs, rest)
  | .error e => .error e

/-- Read a length-prefixed string (`u64` length, then that many bytes). -/
def readString (l : List Nat) : Except DeserializeError (List Nat × List Nat) :=
  match readU64 l with
  | .ok (n, rest) => readBytes n rest
  | .error e => .error e

/-- Read a `bool` byte: `0` is `false`, `1` is `true`, anything else is an
invalid encoding. -/
def readBool (l : List Nat) : Except DeserializeError (Bool × List Nat) :=
  match l with
  | [] => .error .endOfStream
  | 0 :: rest => .ok (false, rest)
  | 1 :: rest => .ok (true, rest)
  | b :: _ => .error (.invalidBool b)

/-- Decode a `NetworkError` value from the front of the input. -/
def deserializeNetworkError (l : List Nat) :
    Except DeserializeError (NetworkError × List Nat) :=
  match readU32 l with
  | .error e => .error e
  | .ok (tag, rest) =>
    if tag = 0 then
      match readString rest with
      | .error e => .error e
      | .ok (ver1, r1) =>
        match readString r1 with
        | .error e => .error e
        | .ok (ver2, r2) => .ok (.VersionMismatch ver1 ver2, r2)
    else if tag = 1 then .ok (.ShouldCrashBothTrue, rest)
    else .error (.invalidTag tag)

/-- Decode a `NetworkPacket` from the front of the input, returning the packet
and the unread remainder. -/
def deserializeNetworkPacket (l : List Nat) :
    Except DeserializeError (NetworkPacket × List Nat) :=
  match readU32 l with
  | .error e => .error e
  | .ok (tag, rest) =>
    if tag = 0 then
      match readString rest with
      | .error e => .error e
      | .ok (version, r1) =>
        match readBool r1 with
        | .error e => .error e
        | .ok (should_crash, r2) => .ok (.Init version should_crash, r2)
    else if tag = 1 then
      match deserializeNetworkError rest with
      | .error e => .error e
      | .ok (err, r) => .ok (.Error err, r)
    else .error (.invalidTag tag)

/-- `deserialize_packet` from `src/net/mod.rs`: decode one packet from the byte
slice (the decoder reads from the front of the slice; trailing bytes are not
an error). -/
def deserialize_packet (to_de : List Nat) : Except DeserializeError NetworkPacket :=
  match deserializeNetworkPacket to_de with
  | .ok (p, _) => .ok p
  | .error e => .error e

/-- `get_packet_length` from `src/net/mod.rs`: split the 6-byte header at
offset 4, compare the little-endian `u32` against `NET_MAGIC_NUMBER`, and on a
match return the little-endian `u16` read from the remaining two bytes. -/
def get_packet_length (to_ln : List Nat) : Option Nat :=
  let first_four := to_ln.take 4
  let next_two := to_ln.drop 4
  if leRead first_four ≠ NET_MAGIC_NUMBER then none
  else some (leRead (next_two.take 2))

/-- `seralize_packet` from `src/net/mod.rs`: write `NET_MAGIC_NUMBER` as a
little-endian `u32`, then the encoded payload's length cast `as u16` (a
truncating cast), then the payload itself. -/
def seralize_packet (to_ser : NetworkPacket) : List Nat :=
  let encoded := serialize to_ser
  u32le NET_MAGIC_NUMBER ++ u16le encoded.length ++ encoded

/-- A call `handle_packet` makes on the event loop it is given: `send(target,
packet)` queues a packet for the peer at `target`, `kill(target)` requests that
the connection at `target` be torn down.  Tokens are `Nat`. -/
inductive EventLoopCall where
  | send (target : Nat) (packet : NetworkPacket)
  | kill (target : Nat)
deriving DecidableEq, Repr

/-- Result of `handle_packet` from `src/net/mod.rs`: either the ordered list of
event-loop calls it issued, or an abort.  `panicked err` is the
`panic!(error)` the `Error` arm executes when `check_should_crash()` is true;
`unimplementedPath` is the `unimplemented!()` it reaches otherwise. -/
inductive HandleResult where
  | calls (trace : List EventLoopCall)
  | panicked (err : NetworkError)
  | unimplementedPath
deriving DecidableEq, Repr

/-- `handle_packet` from `src/net/mod.rs`, with the process-wide `VERSION` and
`check_should_crash()` values passed in as `localVersion` and
`localShouldCrash`.  On `Init`, two independent `if`s run in order: first the
should-crash check (queue `Error(ShouldCrashBothTrue)` to the sender, then
kill the sender), then the version check (queue
`Error(VersionMismatch(version, VERSION))` to the sender). -/
def handle_packet (localVersion : List Nat) (localShouldCrash : Bool)
    (to_handle : NetworkPacket) (sender : Nat) : HandleResult :=
  match to_handle with
  | .Init version should_crash =>
    .calls
      ((if !should_crash && !localShouldCrash then
          [EventLoopCall.send sender (.Error .ShouldCrashBothTrue),
           EventLoopCall.kill sender]
        else []) ++
       (if version ≠ localVersion then
          [EventLoopCall.send sender
            (.Error (.VersionMismatch version localVersion))]
        else []))
  | .Error err => if localShouldCrash then .panicked err else .unimplementedPath

/-- Outcome of the readable branch of `Handler::ready`.  `panicked` is any of
the `expect`/`unwrap`/`unimplemented` aborts of the reactor thread;
`panickedOnError err` is the `panic!(error)` raised for an `Error` packet under
the crash policy; `killed token` is the direct kill-and-return taken when the
computed length is `0`; `handled trace` means the decoded packet reached
`handle_packet`, which issued `trace`. -/
inductive ReadOutcome where
  | panicked
  | panickedOnError (err : NetworkError)
  | killed (token : Nat)
  | handled (trace : List EventLoopCall)
deriving DecidableEq, Repr

/-- Readable branch of `Handler::ready` from `src/net/mod.rs`.  `headerRead` is
the result of `stream.read(&mut header)` for the 6 header bytes (`none` is an
I/O error, which the code turns into a reactor panic via `expect`).
`payloadRead` is the result of `stream.take(length).read_to_end(..)` (`none`
is an I/O error, which the `unwrap` turns into a panic).  The header length is
`get_packet_length(header).unwrap_or(0)`; a length of `0` kills the connection
and returns before any payload is read.  A `deserialize_packet` failure is
unwrapped — a reactor panic — and a decoded packet goes to `handle_packet`. -/
def ready_readable (localVersion : List Nat) (localShouldCrash : Bool) (token : Nat)
    (headerRead : Option (List Nat)) (payloadRead : Option (List Nat)) : ReadOutcome :=
  match headerRead with
  | none => .panicked
  | some header =>
    let length := (get_packet_length header).getD 0
    if length = 0 then .killed token
    else
      match payloadRead with
      | none => .panicked
      | some packet =>
        match deserialize_packet packet with
        | .error _ => .panicked
        | .ok dese =>
          match handle_packet localVersion localShouldCrash dese token with
          | .calls trace => .handled trace
          | .panicked err => .panickedOnError err
          | .unimplementedPath => .panicked

/-- Outcome of the writable branch of `Handler::ready`: either the reactor
thread panicked (a `write` or `flush` error hit an `expect`), or the frames
written in order together with the connection's message queue afterwards. -/
inductive WriteOutcome where
  | panicked
  | flushed (frames : List (List Nat)) (queueAfter : List NetworkPacket)
deriving DecidableEq, Repr

/-- The `for send in to_send` loop of the writable branch: each packet is
encoded with `seralize_packet` and written; `writeFails i` says whether the
`i`-th `write` call returns an I/O error (which the `expect` turns into a
panic, modelled as `none`). -/
def write_loop (toSend : List NetworkPacket) (writeFails : Nat → Bool) (i : Nat) :
    Option (List (List Nat)) :=
  match toSend with
  | [] => some []
  | send :: rest =>
    if writeFails i then none
    else
      match write_loop rest writeFails (i + 1) with
      | none => none
      | some frames => some (seralize_packet send :: frames)

/-- Writable branch of `Handler::ready` from `src/net/mod.rs`: clone the
connection's message queue into `to_send`, replace the queue with an empty
vector, and if `to_send` is nonempty write every packet in order and flush.
`writeFails`/`flushFails` model I/O errors on `write`/`flush`, each of which
hits an `expect` and panics the reactor thread. -/
def ready_writable (message_queue : List NetworkPacket) (writeFails : Nat → Bool)
    (flushFails : Bool) : WriteOutcome :=
  let to_send := message_queue
  if to_send.isEmpty then .flushed [] []
  else
    match write_loop to_send writeFails 0 with
    | none => .panicked
    | some frames => if flushFails then .panicked else .flushed frames []

/-- The `Send(target, packet)` arm of `Handler::notify`:
`self.connections[target].message_queue.push(packet)` appends at the back. -/
def notify_send (message_queue : List NetworkPacket) (packet : NetworkPacket) :
    List NetworkPacket :=
  message_queue ++ [packet]

/-- `Connection` from `src/net/mod.rs`: a live `TcpStream` (not representable
in the embedding and omitted) plus the FIFO `message_queue`. -/
structure Connection where
  message_queue : List NetworkPacket
deriving DecidableEq, Repr

/-- The mio `Slab` holding the connection table: `offset` is the starting
token (`Token::from_usize(1)` in `Handler::new`) and `entries` the fixed-size
slot array, one `Option Connection` per slot.  (`Slab` is an external
dependency of the crate; `insert` returns `Err(value)` when every slot is
occupied, `Ok(token)` otherwise.) -/
structure Slab where
  offset : Nat
  entries : List (Option Connection)
deriving DecidableEq, Repr

/-- `Slab::new_starting_at(Token::from_usize(offset), capacity)`: all slots
free. -/
def Slab.new_starting_at (offset capacity : Nat) : Slab :=
  ⟨offset, List.replicate capacity none⟩

/-- Index of the first free slot, if any. -/
def findAvailable : List (Option Connection) → Option Nat
  | [] => none
  | none :: _ => some 0
  | some _ :: rest => (findAvailable rest).map (· + 1)

/-- `Slab::insert`: place the value in the first free slot and return its
token (`offset + slot index`); return `Err(value)` — the distinguishable
table-full condition — when no slot is free. -/
def Slab.insert (s : Slab) (c : Connection) : Except Connection (Slab × Nat) :=
  match findAvailable s.entries with
  | none => .error c
  | some i => .ok (⟨s.offset, s.entries.set i (some c)⟩, s.offset + i)

/-- Indexing `self.connections[token]` to push a packet (the `Send` arm of
`notify`): `none` models the panic of indexing a vacant or out-of-range
slot. -/
def Slab.send_to (s : Slab) (token : Nat) (packet : NetworkPacket) : Option Slab :=
  match s.entries.get? (token - s.offset) with
  | some (some c) =>
    some ⟨s.offset, s.entries.set (token - s.offset) (some ⟨notify_send c.message_queue packet⟩)⟩
  | _ => none

/-- Outcome of `Handler::tick` accepting one peer: `panicked` is the
`insert(..).unwrap()` aborting the reactor thread (and the
`self.connections[token]` panic on the deferred `Init` send, which cannot fire
for a freshly inserted token); `accepted` carries the table afterwards and the
new peer's token. -/
inductive TickOutcome where
  | panicked
  | accepted (table : Slab) (token : Nat)
deriving DecidableEq, Repr

/-- `Handler::tick` from `src/net/mod.rs`, for one listener yielding one
accepted socket: `self.connections.insert(Connection::new(socket)).unwrap()`,
push the token to `to_init`, then send
`Init { version: VERSION, should_crash: check_should_crash() }` to it (the
send reaches `notify` and is pushed onto the new connection's queue). -/
def tick_accept (table : Slab) (localVersion : List Nat) (localShouldCrash : Bool) :
    TickOutcome :=
  match table.insert ⟨[]⟩ with
  | .error _ => .panicked
  | .ok (t, token) =>
    match t.send_to token (.Init localVersion localShouldCrash) with
    | some t2 => .accepted t2 token
    | none => .panicked

/-! ### Helper lemmas -/

theorem length_u16le (n : Nat) : (u16le n).length = 2 := rfl

theorem length_u32le (n : Nat) : (u32le n).length = 4 := rfl

theorem length_u64le (n : Nat) : (u64le n).length = 8 := rfl

theorem length_serString (s : List Nat) : (serString s).length = 8 + s.length := by
  simp [serString, u64le]
  omega

theorem foldl_notify_send (acc ps : List NetworkPacket) :
    ps.foldl notify_send acc = acc ++ ps := by
  induction ps generalizing acc with
  | nil => simp
  | cons p rest ih => simp [notify_send, ih]

theorem write_loop_no_fail (ps : List NetworkPacket) (i : Nat) :
    write_loop ps (fun _ => false) i = some (ps.map seralize_packet) := by
  induction ps generalizing i with
  | nil => rfl
  | cons p rest ih => simp [write_loop, ih]

/-! ### Claims about the handshake state machine -/

/-- C1: on an `Init` whose `should_crash` field is `false` while the local
policy flag is also `false`, `handle_packet` queues `Error(ShouldCrashBothTrue)`
to the sender and then kills that connection; the should-crash check runs
before the version check, and when the version also mismatches both error
packets are queued, the `ShouldCrashBothTrue` one first. -/
theorem init_mutual_no_crash_sends_then_kills
    (localVersion version : List Nat) (sender : Nat) :
    handle_packet localVersion false (.Init version false) sender =
      .calls ([EventLoopCall.send sender (.Error .ShouldCrashBothTrue),
               EventLoopCall.kill sender] ++
        (if version ≠ localVersion then
          [EventLoopCall.send sender (.Error (.VersionMismatch version localVersion))]
        else [])) := by
  simp [handle_packet]

/-- C6: on an `Init` whose version differs from the local version and whose
should-crash handling did not fire (at least one of the two flags is `true`),
`handle_packet` queues exactly one `Error(VersionMismatch(remote, local))` —
remote version first, local second — and the issued trace contains no kill. -/
theorem init_version_mismatch_direction_correct
    (localVersion version : List Nat) (localShouldCrash should_crash : Bool) (sender : Nat)
    (hv : version ≠ localVersion)
    (hnk : should_crash = true ∨ localShouldCrash = true) :
    handle_packet localVersion localShouldCrash (.Init version should_crash) sender =
      .calls [EventLoopCall.send sender (.Error (.VersionMismatch version localVersion))] ∧
    EventLoopCall.kill sender ∉
      [EventLoopCall.send sender (.Error (.VersionMismatch version localVersion))] := by
  refine ⟨?_, by simp⟩
  rcases hnk with h | h <;> subst h <;> simp [handle_packet, hv]

/-- Witness for `init_version_mismatch_direction_correct` at versions `"2"`
vs `"1"` (bytes `[50]` vs `[49]`) with both crash flags `true`. -/
theorem init_version_mismatch_direction_correct_witness :
    ([50] : List Nat) ≠ [49] ∧
    (handle_packet [49] true (.Init [50] true) 1 =
       .calls [EventLoopCall.send 1 (.Error (.VersionMismatch [50] [49]))] ∧
     EventLoopCall.kill 1 ∉
       [EventLoopCall.send 1 (.Error (.VersionMismatch [50] [49]))]) :=
  ⟨by decide,
   init_version_mismatch_direction_correct [49] [50] true true 1 (by decide) (Or.inr rfl)⟩

/-! ### Claims about the reactor's readable path -/

/-- C8: a 6-byte header whose first four bytes do not read as the magic number
makes `get_packet_length` return `none` regardless of the trailing two bytes,
and the readable path then kills the connection at once — no payload is read
and no error packet is sent. -/
theorem bad_magic_header_kills_connection
    (header : List Nat) (payloadRead : Option (List Nat))
    (localVersion : List Nat) (localShouldCrash : Bool) (token : Nat)
    (hlen : header.length = 6)
    (hmagic : leRead (header.take 4) ≠ NET_MAGIC_NUMBER) :
    get_packet_length header = none ∧
    ready_readable localVersion localShouldCrash token (some header) payloadRead =
      .killed token := by
  have h1 : get_packet_length header = none := by
    simp [get_packet_length, hmagic]
  exact ⟨h1, by simp [ready_readable, h1]⟩

/-- Witness for `bad_magic_header_kills_connection` at the all-zero header. -/
theorem bad_magic_header_kills_connection_witness :
    ([0, 0, 0, 0, 0, 0] : List Nat).length = 6 ∧
    leRead (([0, 0, 0, 0, 0, 0] : List Nat).take 4) ≠ NET_MAGIC_NUMBER ∧
    (get_packet_length [0, 0, 0, 0, 0, 0] = none ∧
     ready_readable [] false 0 (some [0, 0, 0, 0, 0, 0]) none = .killed 0) :=
  ⟨by decide, by decide,
   bad_magic_header_kills_connection [0, 0, 0, 0, 0, 0] none [] false 0
     (by decide) (by decide)⟩

/-- C10: a 6-byte header carrying the correct magic number but announcing a
payload length of `0` is treated exactly like a bad-magic frame: even though
`get_packet_length` returns `some 0` for the well-formed header, the
`length == 0` test on `unwrap_or(0)` kills the connection immediately, before
any payload is read. -/
theorem magic_zero_length_killed_like_desync
    (header : List Nat) (payloadRead : Option (List Nat))
    (localVersion : List Nat) (localShouldCrash : Bool) (token : Nat)
    (hlen : header.length = 6)
    (hmagic : leRead (header.take 4) = NET_MAGIC_NUMBER)
    (hzero : leRead ((header.drop 4).take 2) = 0) :
    get_packet_length header = some 0 ∧
    ready_readable localVersion localShouldCrash token (some header) payloadRead =
      .killed token := by
  have h1 : get_packet_length header = some 0 := by
    simp [get_packet_length, hmagic, hzero]
  exact ⟨h1, by simp [ready_readable, h1]⟩

/-- Witness for `magic_zero_length_killed_like_desync` at the header made of
the magic bytes followed by `[0, 0]`. -/
theorem magic_zero_length_killed_like_desync_witness :
    ([67, 16, 1, 203, 0, 0] : List Nat).length = 6 ∧
    leRead (([67, 16, 1, 203, 0, 0] : List Nat).take 4) = NET_MAGIC_NUMBER ∧
    leRead ((([67, 16, 1, 203, 0, 0] : List Nat).drop 4).take 2) = 0 ∧
    (get_packet_length [67, 16, 1, 203, 0, 0] = some 0 ∧
     ready_readable [] false 0 (some [67, 16, 1, 203, 0, 0]) none = .killed 0) :=
  ⟨by decide, by decide, by decide,
   magic_zero_length_killed_like_desync [67, 16, 1, 203, 0, 0] none [] false 0
     (by decide) (by decide) (by decide)⟩

/-! ### Claims about the reactor's writable path -/

/-- C9: packets enqueued through the `Send` arm of `notify` land in the queue
in FIFO order, and a single writable event with no I/O failure swaps the queue
for an empty one and writes every swapped-out packet as a frame in exactly
that order; in particular enqueuing `A, B, C` and flushing once emits the
frames of `A`, `B`, `C` in order. -/
theorem writable_event_flushes_queue_fifo (ps : List NetworkPacket) :
    ps.foldl notify_send [] = ps ∧
    ready_writable ps (fun _ => false) false =
      .flushed (ps.map seralize_packet) [] := by
  refine ⟨by simpa using foldl_notify_send [] ps, ?_⟩
  cases ps with
  | nil => rfl
  | cons p rest => simp [ready_writable, write_loop_no_fail]

/-! ### Codec lemmas -/

theorem leRead_u16le (n : Nat) : leRead (u16le n) = n % 2 ^ 16 := by
  simp [leRead, u16le, List.foldr]
  omega

theorem leRead_u32le (n : Nat) : leRead (u32le n) = n % 2 ^ 32 := by
  simp [leRead, u32le, List.foldr]
  omega

theorem leRead_u64le (n : Nat) : leRead (u64le n) = n % 2 ^ 64 := by
  simp [leRead, u64le, List.foldr]
  omega

theorem readBytes_exact (n : Nat) (l rest : List Nat) (h : l.length = n) :
    readBytes n (l ++ rest) = .ok (l, rest) := by
  subst h
  simp [readBytes, List.take_left, List.drop_left]

theorem readU32_u32le (n : Nat) (rest : List Nat) :
    readU32 (u32le n ++ rest) = .ok (n % 2 ^ 32, rest) := by
  have hb := readBytes_exact 4 (u32le n) rest (length_u32le n)
  simp [readU32, hb, leRead_u32le]

theorem readU64_u64le (n : Nat) (rest : List Nat) :
    readU64 (u64le n ++ rest) = .ok (n % 2 ^ 64, rest) := by
  have hb := readBytes_exact 8 (u64le n) rest (length_u64le n)
  simp [readU64, hb, leRead_u64le]

theorem readString_serString (s rest : List Nat) (h : s.length < 2 ^ 64) :
    readString (serString s ++ rest) = .ok (s, rest) := by
  have heq : serString s ++ rest = u64le s.length ++ (s ++ rest) := by
    simp [serString]
  have h64 := readU64_u64le s.length (s ++ rest)
  rw [Nat.mod_eq_of_lt h] at h64
  have hb := readBytes_exact s.length s rest rfl
  rw [heq]
  simp [readString, h64, hb]

theorem readBool_serBool (b : Bool) : readBool (serBool b) = .ok (b, []) := by
  cases b <;> rfl

/-- The Rust values embedded by a packet always have string fields shorter
than `2 ^ 64` bytes (a `usize` bound); the deserializer needs this to read the
`u64` length prefix back exactly. -/
def stringsFit : NetworkPacket → Prop
  | .Init version _ => version.length < 2 ^ 64
  | .Error (.VersionMismatch ver1 ver2) => ver1.length < 2 ^ 64 ∧ ver2.length < 2 ^ 64
  | .Error .ShouldCrashBothTrue => True

theorem deserialize_serialize (p : NetworkPacket) (h : stringsFit p) :
    deserializeNetworkPacket (serialize p) = .ok (p, []) := by
  cases p with
  | Init version should_crash =>
    have hv : version.length < 2 ^ 64 := h
    have h32 := readU32_u32le 0 (serString version ++ serBool should_crash)
    have hstr := readString_serString version (serBool should_crash) hv
    have hb := readBool_serBool should_crash
    simp [serialize, deserializeNetworkPacket, h32, hstr, hb]
  | Error err =>
    cases err with
    | VersionMismatch ver1 ver2 =>
      obtain ⟨h1, h2⟩ := h
      have h32 := readU32_u32le 1 (u32le 0 ++ (serString ver1 ++ serString ver2))
      have h32e := readU32_u32le 0 (serString ver1 ++ serString ver2)
      have hs1 := readString_serString ver1 (serString ver2) h1
      have hs2 : readString (serString ver2) = .ok (ver2, []) := by
        have := readString_serString ver2 [] h2
        simpa using this
      have hone : (1 : Nat) % 2 ^ 32 = 1 := by norm_num
      simp [serialize, serNetworkError, deserializeNetworkPacket,
            deserializeNetworkError, h32, h32e, hs1, hs2, hone]
    | ShouldCrashBothTrue => rfl

theorem deserialize_packet_serialize (p : NetworkPacket) (h : stringsFit p) :
    deserialize_packet (serialize p) = .ok p := by
  simp [deserialize_packet, deserialize_serialize p h]

theorem seralize_packet_def (p : NetworkPacket) :
    seralize_packet p =
      (u32le NET_MAGIC_NUMBER ++ u16le (serialize p).length) ++ serialize p := by
  simp [seralize_packet]

theorem seralize_packet_take_6 (p : NetworkPacket) :
    (seralize_packet p).take 6 =
      u32le NET_MAGIC_NUMBER ++ u16le (serialize p).length := by
  rw [seralize_packet_def]
  exact List.take_left' (by simp [u32le, u16le])

theorem seralize_packet_drop_6 (p : NetworkPacket) :
    (seralize_packet p).drop 6 = serialize p := by
  rw [seralize_packet_def]
  exact List.drop_left' (by simp [u32le, u16le])

theorem get_packet_length_frame_header (n : Nat) :
    get_packet_length (u32le NET_MAGIC_NUMBER ++ u16le n) = some (n % 2 ^ 16) := by
  have h4 : (u32le NET_MAGIC_NUMBER ++ u16le n).take 4 = u32le NET_MAGIC_NUMBER :=
    List.take_left' (length_u32le NET_MAGIC_NUMBER)
  have hd : (u32le NET_MAGIC_NUMBER ++ u16le n).drop 4 = u16le n :=
    List.drop_left' (length_u32le NET_MAGIC_NUMBER)
  have hm : leRead (u32le NET_MAGIC_NUMBER) = NET_MAGIC_NUMBER := by decide
  have ht : (u16le n).take 2 = u16le n := by simp [u16le]
  simp [get_packet_length, h4, hd, hm, ht, leRead_u16le]

theorem stringsFit_of_payload_fits (p : NetworkPacket)
    (h : (serialize p).length < 2 ^ 16) : stringsFit p := by
  cases p with
  | Init version should_crash =>
    have : (serialize (.Init version should_crash)).length = 13 + version.length := by
      simp [serialize, serBool, length_serString, u32le]
      omega
    rw [this] at h
    show version.length < 2 ^ 64
    omega
  | Error err =>
    cases err with
    | VersionMismatch ver1 ver2 =>
      have : (serialize (.Error (.VersionMismatch ver1 ver2))).length =
          24 + ver1.length + ver2.length := by
        simp [serialize, serNetworkError, length_serString, u32le]
        omega
      rw [this] at h
      exact ⟨by omega, by omega⟩
    | ShouldCrashBothTrue => trivial

/-! ### Framing round-trip (C7) -/

/-- C7 (amended): for every packet whose encoded payload length fits in 16
bits, decoding the payload portion of `seralize_packet p` (the bytes after the
6-byte header) yields `p` again, and decoding the 6-byte header yields
`some n` with `n` the exact encoded payload length.  (Without the 16-bit bound
the header half fails, see `oversized_packet_header_not_exact`.) -/
theorem frame_roundtrip_of_fits (p : NetworkPacket)
    (h : (serialize p).length < 2 ^ 16) :
    deserialize_packet ((seralize_packet p).drop 6) = .ok p ∧
    get_packet_length ((seralize_packet p).take 6) = some (serialize p).length := by
  constructor
  · rw [seralize_packet_drop_6]
    exact deserialize_packet_serialize p (stringsFit_of_payload_fits p h)
  · rw [seralize_packet_take_6, get_packet_length_frame_header,
        Nat.mod_eq_of_lt h]

/-- Witness for `frame_roundtrip_of_fits` at `Init { version: "1.0",
should_crash: true }` (version bytes `[49, 46, 48]`). -/
theorem frame_roundtrip_of_fits_witness :
    (serialize (.Init [49, 46, 48] true)).length < 2 ^ 16 ∧
    (deserialize_packet ((seralize_packet (.Init [49, 46, 48] true)).drop 6) =
       .ok (.Init [49, 46, 48] true) ∧
     get_packet_length ((seralize_packet (.Init [49, 46, 48] true)).take 6) =
       some (serialize (.Init [49, 46, 48] true)).length) :=
  ⟨by decide, frame_roundtrip_of_fits (.Init [49, 46, 48] true) (by decide)⟩

/-- A packet whose encoded payload is exactly `2 ^ 16` bytes long: an `Init`
with a 65523-byte version string (tag 4 bytes, length prefix 8 bytes, string
65523 bytes, bool 1 byte). -/
def oversizedPacket : NetworkPacket := .Init (List.replicate 65523 97) true

theorem length_serialize_oversizedPacket : (serialize oversizedPacket).length = 65536 := by
  rw [show oversizedPacket = .Init (List.replicate 65523 97) true from rfl]
  rw [serialize]
  rw [List.length_append, List.length_append, length_u32le, length_serString,
      List.length_replicate]
  rfl

/-- Counterexample to C7 as stated: at `oversizedPacket` the encoded payload
length is `65536`, but the header of `seralize_packet` decodes to `some 0`,
not `some 65536` — the length field is not the exact payload length for every
packet. -/
theorem oversized_packet_header_not_exact :
    (serialize oversizedPacket).length = 65536 ∧
    get_packet_length ((seralize_packet oversizedPacket).take 6) = some 0 ∧
    get_packet_length ((seralize_packet oversizedPacket).take 6) ≠
      some (serialize oversizedPacket).length := by
  have h6 : (seralize_packet oversizedPacket).take 6 =
      u32le NET_MAGIC_NUMBER ++ u16le 65536 := by
    rw [seralize_packet_take_6, length_serialize_oversizedPacket]
  have hz : get_packet_length (u32le NET_MAGIC_NUMBER ++ u16le 65536) = some 0 := by
    rw [get_packet_length_frame_header]
    norm_num
  refine ⟨length_serialize_oversizedPacket, by rw [h6, hz], ?_⟩
  rw [h6, hz, length_serialize_oversizedPacket]
  simp

/-! ### Silent truncation of the length field (C2) -/

/-- C2 is violated by the code: `seralize_packet` writes `encoded.len() as
u16`, a silently truncating cast.  At `oversizedPacket` the true payload
length is `65536` while the emitted two-byte length field reads back as `0`;
no error is detected or reported. -/
theorem seralize_packet_truncates_length_field :
    (serialize oversizedPacket).length = 65536 ∧
    leRead (((seralize_packet oversizedPacket).drop 4).take 2) = 0 := by
  have hd : (seralize_packet oversizedPacket).drop 4 =
      u16le (serialize oversizedPacket).length ++ serialize oversizedPacket := by
    rw [seralize_packet_def, List.append_assoc]
    exact List.drop_left' (length_u32le NET_MAGIC_NUMBER)
  have ht : (u16le (serialize oversizedPacket).length ++
      serialize oversizedPacket).take 2 = u16le (serialize oversizedPacket).length :=
    List.take_left' (length_u16le _)
  refine ⟨length_serialize_oversizedPacket, ?_⟩
  rw [hd, ht, leRead_u16le, length_serialize_oversizedPacket]
  norm_num

/-! ### Decode failure panics the reactor (C3) -/

/-- C3 is violated by the code: on a malformed payload under correct framing,
`deserialize_packet` does return a `DeserializeError` value, but the readable
path of `Handler::ready` unwraps that result, so the reactor thread panics —
the owning connection is not killed.  Shown at the 4-byte payload
`[9, 0, 0, 0]` (enum tag 9) under a well-formed header announcing length 4. -/
theorem decode_failure_panics_reactor :
    deserialize_packet [9, 0, 0, 0] = .error (.invalidTag 9) ∧
    ready_readable [49] true 1 (some (u32le NET_MAGIC_NUMBER ++ u16le 4))
      (some [9, 0, 0, 0]) = .panicked :=
  ⟨rfl, rfl⟩

/-! ### Full connection table panics the tick (C4) -/

/-- A capacity-1 connection table whose only slot is occupied. -/
def fullTable : Slab := ⟨1, [some ⟨[]⟩]⟩

/-- C4 is violated by the code: `Slab::insert` does report the distinguishable
table-full condition (`Err(value)`), but `Handler::tick` calls
`insert(..).unwrap()`, so accepting a peer while the table is full panics the
reactor thread instead of refusing the connection. -/
theorem full_table_tick_panics :
    fullTable.insert ⟨[]⟩ = .error ⟨[]⟩ ∧
    tick_accept fullTable [49] true = .panicked :=
  ⟨rfl, rfl⟩

/-! ### Per-connection I/O failures panic the reactor (C5) -/

/-- C5 is violated by the code: a read error on the 6-byte header, a write
error on an encoded frame, and a flush error each hit an `expect`/`unwrap`,
panicking the reactor thread rather than terminating only the offending
connection. -/
theorem io_failure_panics_reactor :
    ready_readable [49] true 1 none none = .panicked ∧
    ready_writable [NetworkPacket.Init [49] true] (fun _ => true) false = .panicked ∧
    ready_writable [NetworkPacket.Init [49] true] (fun _ => false) true = .panicked :=
  ⟨rfl, rfl, rfl⟩

end BuildEngine
